import Mathlib

set_option maxHeartbeats 1000000

/-!
Shallow embedding of the Halo zigbee hub core (src/main/zigbee_devices.c and
src/main/zigbee_hub.c) and proofs of the specification claims about it.

Machine integers are modelled as Nat with explicit reductions modulo 256 where
the C code truncates to a byte; byte buffers are lists of Nat; the global
device table is passed explicitly as a list; fallible C functions returning
esp_err_t become Except / explicit result values.
-/

namespace Halo

/-! ## Constants from zigbee_hub.h -/

def ZIGBEE_MAX_DEVICES : Nat := 10
def ZIGBEE_FINDER_TIMEOUT_SEC : Nat := 60
def ZIGBEE_FINDER_SCAN_INTERVAL : Nat := 5

/-! ## Data model (zigbee_hub.h) -/

/-- Device kinds; `tuyaBlind` is the proprietary covering kind used throughout
zigbee_hub.c, the others come from the `zigbee_device_type_t` enum. -/
inductive zigbee_device_type_t where
  | unknown
  | blind
  | light
  | switchKind
  | tuyaBlind
deriving DecidableEq, Repr

/-- One paired device, mirroring `zigbee_device_t`. The IEEE address is the
8-byte array `ieee_addr`. -/
structure zigbee_device_t where
  short_addr : Nat
  ieee_addr : List Nat
  endpoint : Nat
  device_type : zigbee_device_type_t
  is_online : Bool
  current_position : Nat
deriving DecidableEq, Repr

/-- Result codes used by the embedded functions (subset of esp_err_t). -/
inductive esp_err_t where
  | espOk
  | errInvalidArg
  | errNoMem
  | errNotFound
  | errInvalidSize
  | errFail
deriving DecidableEq, Repr

/-! ## Registry (zigbee_devices.c)

`s_devices` / `s_device_count` become an explicit list of records. -/

/-- The in-place update scan of `zigbee_devices_add`: walk the table and
overwrite the first record whose `ieee_addr` equals the new record's
(`memcmp(s_devices[i].ieee_addr, device->ieee_addr, 8) == 0` followed by
`memcpy`); `none` when no record matches. -/
def replaceByIeee (device : zigbee_device_t) :
    List zigbee_device_t → Option (List zigbee_device_t)
  | [] => none
  | d :: rest =>
    if d.ieee_addr = device.ieee_addr then some (device :: rest)
    else (replaceByIeee device rest).map (d :: ·)

/-- `zigbee_devices_add`: update in place when the IEEE address is already
stored, otherwise append when below `ZIGBEE_MAX_DEVICES`, otherwise fail with
`ESP_ERR_NO_MEM`. -/
def zigbee_devices_add (device : zigbee_device_t) (devices : List zigbee_device_t) :
    Except esp_err_t (List zigbee_device_t) :=
  match replaceByIeee device devices with
  | some updated => .ok updated
  | none =>
    if ZIGBEE_MAX_DEVICES ≤ devices.length then .error .errNoMem
    else .ok (devices ++ [device])

/-- Linear scan of the table by IEEE address, as performed by the duplicate
check of `zigbee_devices_add` and by the rejoin scan of
`esp_zb_app_signal_handler`. -/
def get_by_ieee (ieee : List Nat) : List zigbee_device_t → Option zigbee_device_t
  | [] => none
  | d :: rest => if d.ieee_addr = ieee then some d else get_by_ieee ieee rest

/-- `zigbee_devices_get_by_addr`: linear scan by short address. -/
def zigbee_devices_get_by_addr (short_addr : Nat) :
    List zigbee_device_t → Option zigbee_device_t
  | [] => none
  | d :: rest =>
    if d.short_addr = short_addr then some d
    else zigbee_devices_get_by_addr short_addr rest

/-- One upsert step of a caller that ignores the error (the registry is left
untouched when `zigbee_devices_add` fails). -/
def upsertStep (reg : List zigbee_device_t) (d : zigbee_device_t) :
    List zigbee_device_t :=
  ((zigbee_devices_add d reg).toOption).getD reg

/-- The registry resulting from a sequence of `zigbee_devices_add` calls
starting from the empty table. -/
def applyUpserts (ops : List zigbee_device_t) : List zigbee_device_t :=
  ops.foldl upsertStep []

/-- IEEE keys of a registry. -/
def ieeeKeys (reg : List zigbee_device_t) : List (List Nat) :=
  reg.map zigbee_device_t.ieee_addr

/-! ### Registry lemmas -/

theorem replaceByIeee_eq_none {device : zigbee_device_t} :
    ∀ {l : List zigbee_device_t},
      replaceByIeee device l = none ↔ device.ieee_addr ∉ ieeeKeys l := by
  intro l
  induction l with
  | nil => simp [replaceByIeee, ieeeKeys]
  | cons d rest ih =>
    by_cases h : d.ieee_addr = device.ieee_addr
    · simp [replaceByIeee, h, ieeeKeys]
    · cases hrest : replaceByIeee device rest with
      | none =>
        simp only [replaceByIeee, if_neg h, hrest, Option.map_none', ieeeKeys,
          List.map_cons, List.mem_cons, true_iff]
        rw [ieeeKeys] at ih
        intro hmem
        rcases hmem with hmem | hmem
        · exact h hmem.symm
        · exact (ih.mp hrest) hmem
      | some l3 =>
        have hmem : device.ieee_addr ∈ ieeeKeys rest := by
          by_contra hn
          rw [← ih] at hn
          rw [hn] at hrest
          exact Option.noConfusion hrest
        simp only [replaceByIeee, if_neg h, hrest, Option.map_some', ieeeKeys,
          List.map_cons, List.mem_cons]
        rw [ieeeKeys] at hmem
        simp [hmem]

theorem replaceByIeee_keys {device : zigbee_device_t} :
    ∀ {l l2 : List zigbee_device_t}, replaceByIeee device l = some l2 →
      ieeeKeys l2 = ieeeKeys l := by
  intro l
  induction l with
  | nil => intro l2 h; simp [replaceByIeee] at h
  | cons d rest ih =>
    intro l2 h
    by_cases hd : d.ieee_addr = device.ieee_addr
    · simp only [replaceByIeee, if_pos hd] at h
      cases h
      simp [ieeeKeys, hd]
    · cases hrest : replaceByIeee device rest with
      | none => simp [replaceByIeee, if_neg hd, hrest] at h
      | some l3 =>
        simp only [replaceByIeee, if_neg hd, hrest, Option.map_some',
          Option.some_inj] at h
        subst h
        have h3 : List.map zigbee_device_t.ieee_addr l3 =
            List.map zigbee_device_t.ieee_addr rest := by
          simpa [ieeeKeys] using ih hrest
        simp [ieeeKeys, h3]

theorem replaceByIeee_length {device : zigbee_device_t}
    {l l2 : List zigbee_device_t} (h : replaceByIeee device l = some l2) :
    l2.length = l.length := by
  have hk := replaceByIeee_keys h
  have := congrArg List.length hk
  simpa [ieeeKeys] using this

theorem replaceByIeee_get {device : zigbee_device_t} :
    ∀ {l l2 : List zigbee_device_t}, replaceByIeee device l = some l2 →
      get_by_ieee device.ieee_addr l2 = some device := by
  intro l
  induction l with
  | nil => intro l2 h; simp [replaceByIeee] at h
  | cons d rest ih =>
    intro l2 h
    by_cases hd : d.ieee_addr = device.ieee_addr
    · simp only [replaceByIeee, if_pos hd] at h
      cases h
      simp [get_by_ieee]
    · cases hrest : replaceByIeee device rest with
      | none => simp [replaceByIeee, if_neg hd, hrest] at h
      | some l3 =>
        simp only [replaceByIeee, if_neg hd, hrest, Option.map_some',
          Option.some_inj] at h
        subst h
        simp [get_by_ieee, hd, ih hrest]

theorem replaceByIeee_mem_of_ne {device : zigbee_device_t} :
    ∀ {l l2 : List zigbee_device_t}, replaceByIeee device l = some l2 →
      ∀ d ∈ l, d.ieee_addr ≠ device.ieee_addr → d ∈ l2 := by
  intro l
  induction l with
  | nil => intro l2 h; simp [replaceByIeee] at h
  | cons d rest ih =>
    intro l2 h e he hne
    by_cases hd : d.ieee_addr = device.ieee_addr
    · simp only [replaceByIeee, if_pos hd] at h
      cases h
      rcases List.mem_cons.mp he with he | he
      · exact absurd (he ▸ hd) hne
      · exact List.mem_cons_of_mem _ he
    · cases hrest : replaceByIeee device rest with
      | none => simp [replaceByIeee, if_neg hd, hrest] at h
      | some l3 =>
        simp only [replaceByIeee, if_neg hd, hrest, Option.map_some',
          Option.some_inj] at h
        subst h
        rcases List.mem_cons.mp he with he | he
        · exact he ▸ List.mem_cons_self _ _
        · exact List.mem_cons_of_mem _ (ih hrest e he hne)

theorem get_by_ieee_append_of_not_mem {ieee : List Nat} {device : zigbee_device_t}
    (hdev : device.ieee_addr = ieee) :
    ∀ {l : List zigbee_device_t}, ieee ∉ ieeeKeys l →
      get_by_ieee ieee (l ++ [device]) = some device := by
  intro l
  induction l with
  | nil => intro _; simp [get_by_ieee, hdev]
  | cons d rest ih =>
    intro h
    simp only [ieeeKeys, List.map_cons, List.mem_cons] at h
    push_neg at h
    simpa [get_by_ieee, Ne.symm h.1] using ih (by simpa [ieeeKeys] using h.2)

/-- Successful `zigbee_devices_add` preserves distinctness of IEEE keys; when
the key was already present the table keeps its length and its key list. -/
theorem zigbee_devices_add_ok {device : zigbee_device_t}
    {reg reg2 : List zigbee_device_t}
    (h : zigbee_devices_add device reg = .ok reg2) :
    get_by_ieee device.ieee_addr reg2 = some device ∧
    ((ieeeKeys reg).Nodup → (ieeeKeys reg2).Nodup) ∧
    (device.ieee_addr ∈ ieeeKeys reg →
      reg2.length = reg.length ∧ ieeeKeys reg2 = ieeeKeys reg) := by
  unfold zigbee_devices_add at h
  cases hrep : replaceByIeee device reg with
  | some updated =>
    rw [hrep] at h
    simp only [Except.ok.injEq] at h
    subst h
    refine ⟨replaceByIeee_get hrep, ?_, ?_⟩
    · intro hn; exact (replaceByIeee_keys hrep).symm ▸ hn
    · intro _; exact ⟨replaceByIeee_length hrep, replaceByIeee_keys hrep⟩
  | none =>
    rw [hrep] at h
    by_cases hfull : ZIGBEE_MAX_DEVICES ≤ reg.length
    · simp [hfull] at h
    · simp only [if_neg hfull, Except.ok.injEq] at h
      subst h
      have hnot : device.ieee_addr ∉ ieeeKeys reg := replaceByIeee_eq_none.mp hrep
      refine ⟨get_by_ieee_append_of_not_mem rfl hnot, ?_, fun hm => absurd hm hnot⟩
      intro hn
      have hkeys : ieeeKeys (reg ++ [device]) =
          ieeeKeys reg ++ [device.ieee_addr] := by simp [ieeeKeys]
      rw [hkeys]
      refine List.Nodup.append hn (List.nodup_singleton _) ?_
      intro a ha hb
      rw [List.mem_singleton] at hb
      exact hnot (hb ▸ ha)

/-- Every registry reachable by upserts from the empty table has pairwise
distinct IEEE keys. -/
theorem applyUpserts_nodup (ops : List zigbee_device_t) :
    (ieeeKeys (applyUpserts ops)).Nodup := by
  suffices h : ∀ (ops : List zigbee_device_t) (reg : List zigbee_device_t),
      (ieeeKeys reg).Nodup → (ieeeKeys (ops.foldl upsertStep reg)).Nodup by
    exact h ops [] (by simp [ieeeKeys])
  intro ops
  induction ops with
  | nil => intro reg h; simpa using h
  | cons d rest ih =>
    intro reg h
    simp only [List.foldl_cons]
    apply ih
    unfold upsertStep
    cases hadd : zigbee_devices_add d reg with
    | ok reg2 => simpa [hadd] using (zigbee_devices_add_ok hadd).2.1 h
    | error e => simpa [hadd] using h

/-! ## Claim C1 and C2 -/

/-- C1: after any sequence of upserts from the empty registry, the registry
holds at most one record per distinct IEEE address; a further successful
upsert keeps the keys distinct, a lookup of the upserted IEEE address returns
exactly the record just upserted, and when the IEEE address was already
present the registry length is unchanged (the record was overwritten in
place, never duplicated). -/
theorem C1_registry_upsert_no_duplicates (ops : List zigbee_device_t)
    (r : zigbee_device_t) (reg2 : List zigbee_device_t)
    (h : zigbee_devices_add r (applyUpserts ops) = .ok reg2) :
    (ieeeKeys (applyUpserts ops)).Nodup ∧
    (ieeeKeys reg2).Nodup ∧
    get_by_ieee r.ieee_addr reg2 = some r ∧
    (r.ieee_addr ∈ ieeeKeys (applyUpserts ops) →
      reg2.length = (applyUpserts ops).length) := by
  obtain ⟨hget, hnd, hmem⟩ := zigbee_devices_add_ok h
  exact ⟨applyUpserts_nodup ops, hnd (applyUpserts_nodup ops), hget,
    fun hm => (hmem hm).1⟩

/-- Concrete device records used by the witnesses. -/
def sampleDev (n : Nat) : zigbee_device_t :=
  ⟨n, [n, 1, 2, 3, 4, 5, 6, 7], 1, .tuyaBlind, true, 0⟩

/-- C1 witness: re-upserting the one stored record overwrites it in place. -/
theorem C1_witness :
    zigbee_devices_add (sampleDev 3) (applyUpserts [sampleDev 3]) =
      .ok [sampleDev 3] ∧
    ((ieeeKeys (applyUpserts [sampleDev 3])).Nodup ∧
     (ieeeKeys [sampleDev 3]).Nodup ∧
     get_by_ieee (sampleDev 3).ieee_addr [sampleDev 3] = some (sampleDev 3) ∧
     ((sampleDev 3).ieee_addr ∈ ieeeKeys (applyUpserts [sampleDev 3]) →
       [sampleDev 3].length = (applyUpserts [sampleDev 3]).length)) := by
  have h : zigbee_devices_add (sampleDev 3) (applyUpserts [sampleDev 3]) =
      .ok [sampleDev 3] := by rfl
  exact ⟨h, C1_registry_upsert_no_duplicates [sampleDev 3] (sampleDev 3)
    [sampleDev 3] h⟩

/-- C2: an upsert of a fresh IEEE address into a registry already holding
`ZIGBEE_MAX_DEVICES` = 10 records fails with the capacity error
`ESP_ERR_NO_MEM`, and a caller that ignores the error keeps the registry
exactly as it was. -/
theorem C2_storage_full (reg : List zigbee_device_t) (r : zigbee_device_t)
    (hlen : reg.length = ZIGBEE_MAX_DEVICES)
    (hnew : r.ieee_addr ∉ ieeeKeys reg) :
    zigbee_devices_add r reg = .error .errNoMem ∧ upsertStep reg r = reg := by
  have hrep : replaceByIeee r reg = none := replaceByIeee_eq_none.mpr hnew
  have hadd : zigbee_devices_add r reg = .error .errNoMem := by
    unfold zigbee_devices_add
    rw [hrep]
    simp [hlen]
  refine ⟨hadd, ?_⟩
  simp [upsertStep, hadd, Except.toOption]

/-- C2 witness: a full 10-record registry rejects an 11th distinct device and
is left unchanged. -/
theorem C2_witness :
    ((List.range 10).map sampleDev).length = ZIGBEE_MAX_DEVICES ∧
    (sampleDev 10).ieee_addr ∉ ieeeKeys ((List.range 10).map sampleDev) ∧
    zigbee_devices_add (sampleDev 10) ((List.range 10).map sampleDev) =
      .error .errNoMem ∧
    upsertStep ((List.range 10).map sampleDev) (sampleDev 10) =
      (List.range 10).map sampleDev := by
  have h1 : ((List.range 10).map sampleDev).length = ZIGBEE_MAX_DEVICES := by
    decide
  have h2 : (sampleDev 10).ieee_addr ∉ ieeeKeys ((List.range 10).map sampleDev) := by
    decide
  obtain ⟨h3, h4⟩ := C2_storage_full ((List.range 10).map sampleDev)
    (sampleDev 10) h1 h2
  exact ⟨h1, h2, h3, h4⟩

/-! ## Tuya wire codec (zigbee_hub.c: tuya_parse_report, tuya_send_command) -/

/-- Structural rejection reasons of `tuya_parse_report`: the early return for
frames shorter than 7 bytes, and the early return when the declared data
length exceeds the bytes remaining after the 6-byte header. -/
inductive tuya_malformed_t where
  | tooShort
  | truncated
deriving DecidableEq, Repr

/-- The report variants of the `switch (dp_id)` in `tuya_parse_report`:
control state (dp 1), position percentage (dp 2), motor direction (dp 3),
limit status (dp 5), work state (dp 7), and the default case carrying the raw
payload bytes. -/
inductive tuya_report_info_t where
  | controlState (value : Option Nat)
  | positionPercent (value : Option Nat)
  | motorDirection (value : Nat)
  | limitStatus (value : Nat)
  | workState (value : Nat)
  | unknownDp (dp : Nat) (data : List Nat)
deriving DecidableEq, Repr

/-- A successfully parsed Tuya report: header fields, the payload bytes
delimited by the declared length, and the dp-keyed interpretation. -/
structure ParsedReport where
  dp_id : Nat
  data_type : Nat
  data_len : Nat
  payload : List Nat
  info : tuya_report_info_t
deriving DecidableEq, Repr

/-- Declared payload length of a frame: `(data[4] << 8) | data[5]`. -/
def tuyaDeclaredLen (data : List Nat) : Nat :=
  data.getD 4 0 * 256 + data.getD 5 0

/-- The `switch (dp_id)` of `tuya_parse_report` over the header fields and
the bytes `data[6..9]`. The position value mirrors the C exactly: a 4-byte
big-endian read truncated to a byte when the declared length is at least 4,
else the first payload byte when it is at least 1, else no recorded
position. -/
def tuyaInfoOf (dp_id data_len b6 b7 b8 b9 : Nat) (payload : List Nat) :
    tuya_report_info_t :=
  if dp_id = 1 then
    .controlState (if 1 ≤ data_len then some b6 else none)
  else if dp_id = 2 then
    .positionPercent
      (if 4 ≤ data_len then
        some ((((b6 <<< 24) ||| (b7 <<< 16) ||| (b8 <<< 8) ||| b9) % 2 ^ 32)
          % 256)
       else if 1 ≤ data_len then some b6 else none)
  else if dp_id = 3 then .motorDirection b6
  else if dp_id = 5 then .limitStatus b6
  else if dp_id = 7 then .workState b6
  else .unknownDp dp_id payload

/-- `tuya_parse_report`: reject frames shorter than 7 bytes (`if (len < 7)`)
or whose declared length exceeds the remaining buffer
(`if (len < 6 + data_len)`); otherwise produce the dp-keyed report. -/
def tuya_parse_report (data : List Nat) : Except tuya_malformed_t ParsedReport :=
  if data.length < 7 then .error .tooShort
  else
    let dp_id := data.getD 2 0
    let data_type := data.getD 3 0
    let data_len := tuyaDeclaredLen data
    if data.length < 6 + data_len then .error .truncated
    else
      let payload := (data.drop 6).take data_len
      .ok ⟨dp_id, data_type, data_len, payload,
        tuyaInfoOf dp_id data_len (data.getD 6 0) (data.getD 7 0)
          (data.getD 8 0) (data.getD 9 0) payload⟩

/-- Whether a report variant is the one the `switch (dp_id)` of
`tuya_parse_report` selects for the given datapoint id. -/
def infoKeyedByDp : tuya_report_info_t → Nat → Bool
  | .controlState _, dp => dp == 1
  | .positionPercent _, dp => dp == 2
  | .motorDirection _, dp => dp == 3
  | .limitStatus _, dp => dp == 5
  | .workState _, dp => dp == 7
  | .unknownDp d _, dp =>
      d == dp && !(dp == 1 || dp == 2 || dp == 3 || dp == 5 || dp == 7)

/-- Whatever the datapoint id and the surrounding bytes, the
`switch (dp_id)` selects the report variant keyed by that id. -/
theorem infoKeyedByDp_tuyaInfoOf (dp_id data_len b6 b7 b8 b9 : Nat)
    (payload : List Nat) :
    infoKeyedByDp (tuyaInfoOf dp_id data_len b6 b7 b8 b9 payload) dp_id = true := by
  by_cases h1 : dp_id = 1
  · simp [tuyaInfoOf, infoKeyedByDp, h1]
  · by_cases h2 : dp_id = 2
    · simp [tuyaInfoOf, infoKeyedByDp, h1, h2]
    · by_cases h3 : dp_id = 3
      · simp [tuyaInfoOf, infoKeyedByDp, h1, h2, h3]
      · by_cases h5 : dp_id = 5
        · simp [tuyaInfoOf, infoKeyedByDp, h1, h2, h3, h5]
        · by_cases h7 : dp_id = 7
          · simp [tuyaInfoOf, infoKeyedByDp, h1, h2, h3, h5, h7]
          · simp [tuyaInfoOf, infoKeyedByDp, h1, h2, h3, h5, h7]

/-- Shape of a successful parse: the well-formedness tests passed and the
report is built from the header fields and the declared payload slice. -/
theorem tuya_parse_report_ok (data : List Nat) (h7 : ¬ data.length < 7)
    (htr : ¬ data.length < 6 + tuyaDeclaredLen data) :
    tuya_parse_report data = .ok ⟨data.getD 2 0, data.getD 3 0,
      tuyaDeclaredLen data, (data.drop 6).take (tuyaDeclaredLen data),
      tuyaInfoOf (data.getD 2 0) (tuyaDeclaredLen data) (data.getD 6 0)
        (data.getD 7 0) (data.getD 8 0) (data.getD 9 0)
        ((data.drop 6).take (tuyaDeclaredLen data))⟩ := by
  unfold tuya_parse_report
  rw [if_neg h7, if_neg htr]

/-- The frame construction of `tuya_send_command`: a 6-byte header
`[0, seq, dp, type, 0, len]` followed by the payload, rejected with
`ESP_ERR_INVALID_SIZE` when the frame exceeds the 16-byte buffer. `data_len`
and `frame_len` are the C function's uint8_t values; the sequence counter is
incremented before being stored. -/
def tuya_encode (seq : Nat) (dp_id data_type : Nat) (data : List Nat) :
    Except esp_err_t (List Nat) :=
  let data_len := data.length % 256
  let frame_len := (6 + data_len) % 256
  if 16 < frame_len then .error .errInvalidSize
  else
    .ok ([0, (seq + 1) % 256, dp_id % 256, data_type % 256, 0, data_len] ++
      data.take data_len)

/-! ## Claim C4 and C5 -/

/-- C4 counterexample: a 6-byte frame with declared payload length 0 is a
complete header, yet `tuya_parse_report` rejects it as too short instead of
yielding a tagged report. -/
theorem C4_counterexample :
    [0, 0, 1, 4, 0, 0].length = 6 ∧
    tuyaDeclaredLen [0, 0, 1, 4, 0, 0] = 0 ∧
    tuya_parse_report [0, 0, 1, 4, 0, 0] = .error .tooShort :=
  ⟨rfl, rfl, rfl⟩

/-- C4 (amended): decode is total and returns Malformed exactly when the
input is shorter than 7 bytes (6-byte header plus at least one payload byte)
or its declared payload length exceeds the bytes remaining after the header;
every other input yields a report keyed by the datapoint id byte. -/
theorem C4_decode_malformed_boundary (data : List Nat) :
    ((∃ e, tuya_parse_report data = .error e) ↔
      (data.length < 7 ∨ data.length < 6 + tuyaDeclaredLen data)) ∧
    (match tuya_parse_report data with
     | .ok r => r.dp_id = data.getD 2 0 ∧ infoKeyedByDp r.info r.dp_id = true
     | .error _ => True) := by
  by_cases h7 : data.length < 7
  · constructor
    · simp [tuya_parse_report, h7]
    · simp [tuya_parse_report, h7]
  · by_cases htr : data.length < 6 + tuyaDeclaredLen data
    · constructor
      · simp [tuya_parse_report, h7, htr]
      · simp [tuya_parse_report, h7, htr]
    · rw [tuya_parse_report_ok data h7 htr]
      constructor
      · simp [h7, htr]
      · exact ⟨rfl, infoKeyedByDp_tuyaInfoOf _ _ _ _ _ _ _⟩

/-- C5 counterexample: the empty payload's frame is 6 bytes, and decode
rejects it, so decode after encode does not round-trip the empty payload. -/
theorem C5_counterexample :
    tuya_encode 0 2 2 [] = .ok [0, 1, 2, 2, 0, 0] ∧
    tuya_parse_report [0, 1, 2, 2, 0, 0] = .error .tooShort :=
  ⟨rfl, rfl⟩

/-- C5 (amended): for every datapoint id, datatype and nonempty payload whose
frame fits the 16-byte frame buffer (payload of 1 to 10 bytes), decoding the
encoded frame succeeds and returns exactly the original payload bytes. -/
theorem C5_encode_decode_roundtrip (seq dp_id data_type : Nat)
    (data : List Nat) (h1 : 1 ≤ data.length) (h2 : data.length ≤ 10) :
    ∃ frame r, tuya_encode seq dp_id data_type data = .ok frame ∧
      tuya_parse_report frame = .ok r ∧ r.payload = data := by
  have hdl : data.length % 256 = data.length := Nat.mod_eq_of_lt (by omega)
  have h16 : ¬ 16 < (6 + data.length) % 256 := by
    rw [Nat.mod_eq_of_lt (by omega)]
    omega
  have henc : tuya_encode seq dp_id data_type data =
      .ok (0 :: (seq + 1) % 256 :: dp_id % 256 :: data_type % 256 :: 0 ::
        data.length :: data) := by
    simp [tuya_encode, h16, hdl]
  have hlen : (0 :: (seq + 1) % 256 :: dp_id % 256 :: data_type % 256 :: 0 ::
      data.length :: data).length = 6 + data.length := by
    simp only [List.length_cons]
    omega
  have h7 : ¬ (0 :: (seq + 1) % 256 :: dp_id % 256 :: data_type % 256 :: 0 ::
      data.length :: data).length < 7 := by
    rw [hlen]
    omega
  have hdecl : tuyaDeclaredLen (0 :: (seq + 1) % 256 :: dp_id % 256 ::
      data_type % 256 :: 0 :: data.length :: data) = data.length := by
    simp [tuyaDeclaredLen]
  have htr : ¬ (0 :: (seq + 1) % 256 :: dp_id % 256 :: data_type % 256 :: 0 ::
      data.length :: data).length < 6 + tuyaDeclaredLen (0 :: (seq + 1) % 256 ::
      dp_id % 256 :: data_type % 256 :: 0 :: data.length :: data) := by
    rw [hlen, hdecl]
    omega
  have hpay : ((0 :: (seq + 1) % 256 :: dp_id % 256 :: data_type % 256 :: 0 ::
      data.length :: data).drop 6).take (tuyaDeclaredLen (0 :: (seq + 1) % 256 ::
      dp_id % 256 :: data_type % 256 :: 0 :: data.length :: data)) = data := by
    rw [hdecl]
    rw [show (0 :: (seq + 1) % 256 :: dp_id % 256 :: data_type % 256 :: 0 ::
      data.length :: data).drop 6 = data from rfl]
    simp
  exact ⟨_, _, henc, tuya_parse_report_ok _ h7 htr, hpay⟩

/-- C5 witness: a one-byte position payload round-trips. -/
theorem C5_witness :
    1 ≤ ([55] : List Nat).length ∧ ([55] : List Nat).length ≤ 10 ∧
    ∃ frame r, tuya_encode 0 2 2 [55] = .ok frame ∧
      tuya_parse_report frame = .ok r ∧ r.payload = [55] :=
  ⟨by decide, by decide, C5_encode_decode_roundtrip 0 2 2 [55]
    (by decide) (by decide)⟩

/-! ## Bring-up / finder state machine (zigbee_hub.c) -/

/-- `zigbee_state_t` from zigbee_hub.h. -/
inductive zigbee_state_t where
  | initializing
  | formingNetwork
  | finderMode
  | reconnecting
  | ready
  | failed
deriving DecidableEq, Repr

/-- The finder-mode globals of zigbee_hub.c: `s_zigbee_state`,
`s_finder_elapsed_sec`, `s_finder_complete`,
`s_device_paired_during_finder`. -/
structure FinderGlobals where
  zigbee_state : zigbee_state_t
  finder_elapsed_sec : Nat
  finder_complete : Bool
  device_paired_during_finder : Bool
deriving DecidableEq, Repr

/-- `stop_finder_mode`: record whether a device was paired, set the
completion flag, and enter READY in both the paired and the timeout
branch. -/
def stop_finder_mode (paired : Bool) (s : FinderGlobals) : FinderGlobals :=
  { s with device_paired_during_finder := paired,
           finder_complete := true,
           zigbee_state := .ready }

/-- `finder_mode_timer_callback`: advance the elapsed counter by the scan
interval; stop successfully when the registry is non-empty; otherwise scan
and re-open the network (no state change), stopping unsuccessfully when the
elapsed time has reached the timeout. -/
def finder_mode_timer_callback (device_count : Nat) (s : FinderGlobals) :
    FinderGlobals :=
  let s2 := { s with finder_elapsed_sec :=
    s.finder_elapsed_sec + ZIGBEE_FINDER_SCAN_INTERVAL }
  if 0 < device_count then stop_finder_mode true s2
  else if ZIGBEE_FINDER_TIMEOUT_SEC ≤ s2.finder_elapsed_sec then
    stop_finder_mode false s2
  else s2

/-- The state written by `start_finder_mode` (timer creation succeeding). -/
def start_finder_mode_state : FinderGlobals :=
  { zigbee_state := .finderMode, finder_elapsed_sec := 0,
    finder_complete := false, device_paired_during_finder := false }

/-- `n` consecutive timer callbacks observing a constant registry count. -/
def finder_run_ticks (device_count : Nat) : Nat → FinderGlobals → FinderGlobals
  | 0, s => s
  | n + 1, s => finder_run_ticks device_count n
      (finder_mode_timer_callback device_count s)

/-! ## Claim C8 -/

/-- C8: with the 60-second timeout and 5-second tick interval, a tick that
observes a non-empty registry enters READY with the finder-complete flag set;
a tick whose advanced elapsed time reaches the timeout does the same; a tick
observing an empty registry before the timeout only advances the elapsed
counter and stays in FINDER_MODE; hence 12 ticks with no device ever added
take the freshly started finder to READY, complete, with no device paired. -/
theorem C8_finder_mode_termination :
    ZIGBEE_FINDER_TIMEOUT_SEC = 60 ∧
    ZIGBEE_FINDER_SCAN_INTERVAL = 5 ∧
    (∀ (s : FinderGlobals) (device_count : Nat), 0 < device_count →
      (finder_mode_timer_callback device_count s).zigbee_state = .ready ∧
      (finder_mode_timer_callback device_count s).finder_complete = true) ∧
    (∀ (s : FinderGlobals),
      ZIGBEE_FINDER_TIMEOUT_SEC ≤
        s.finder_elapsed_sec + ZIGBEE_FINDER_SCAN_INTERVAL →
      (finder_mode_timer_callback 0 s).zigbee_state = .ready ∧
      (finder_mode_timer_callback 0 s).finder_complete = true) ∧
    (∀ (s : FinderGlobals),
      s.finder_elapsed_sec + ZIGBEE_FINDER_SCAN_INTERVAL <
        ZIGBEE_FINDER_TIMEOUT_SEC →
      finder_mode_timer_callback 0 s =
        { s with finder_elapsed_sec :=
            s.finder_elapsed_sec + ZIGBEE_FINDER_SCAN_INTERVAL }) ∧
    finder_run_ticks 0 12 start_finder_mode_state =
      { zigbee_state := .ready, finder_elapsed_sec := 60,
        finder_complete := true, device_paired_during_finder := false } := by
  refine ⟨rfl, rfl, ?_, ?_, ?_, by decide⟩
  · intro s device_count h
    simp [finder_mode_timer_callback, h, stop_finder_mode]
  · intro s h
    simp [finder_mode_timer_callback, h, stop_finder_mode]
  · intro s h
    have h2 : ¬ ZIGBEE_FINDER_TIMEOUT_SEC ≤
        s.finder_elapsed_sec + ZIGBEE_FINDER_SCAN_INTERVAL := by omega
    simp [finder_mode_timer_callback, h2]

/-! ## Device classification (zb_simple_desc_cb) -/

def ESP_ZB_ZCL_CLUSTER_ID_WINDOW_COVERING : Nat := 0x0102
def ESP_ZB_ZCL_CLUSTER_ID_ON_OFF : Nat := 0x0006
def TUYA_CLUSTER_ID : Nat := 0xEF00

/-- One iteration of the input-cluster scan of `zb_simple_desc_cb`: the
accumulator is the pair `(detected_type, has_tuya_cluster)`. Window covering
always wins; on/off only upgrades an UNKNOWN type; the Tuya vendor cluster
only sets the flag. -/
def clusterScanStep (acc : zigbee_device_type_t × Bool) (cluster_id : Nat) :
    zigbee_device_type_t × Bool :=
  if cluster_id = ESP_ZB_ZCL_CLUSTER_ID_WINDOW_COVERING then (.blind, acc.2)
  else if cluster_id = ESP_ZB_ZCL_CLUSTER_ID_ON_OFF ∧ acc.1 = .unknown then
    (.light, acc.2)
  else if cluster_id = TUYA_CLUSTER_ID then (acc.1, true)
  else acc

/-- The classification of `zb_simple_desc_cb`: scan the input-cluster list,
then, when no standard cluster matched but the Tuya cluster is present,
classify as TUYA_BLIND both for the recognized device ids (0x0202, 0x0051)
and for any other device id. -/
def zb_simple_desc_classify (app_device_id : Nat) (clusters : List Nat) :
    zigbee_device_type_t :=
  let scan := clusters.foldl clusterScanStep (.unknown, false)
  if scan.1 = .unknown ∧ scan.2 = true then
    if app_device_id = 0x0202 ∨ app_device_id = 0x0051 then .tuyaBlind
    else .tuyaBlind
  else scan.1

/-- `device_discovery_ctx_t`. -/
structure device_discovery_ctx_t where
  short_addr : Nat
  ieee_addr : List Nat
  device_registered : Bool
deriving DecidableEq, Repr

/-- The registration tail of `zb_simple_desc_cb`: return unchanged when a
previous callback already registered this device, or when no recognized
cluster was found (the device is skipped); otherwise build the record from
the discovery context, upsert it (the add result is not checked) and set the
idempotency flag. The Bool reports whether an upsert happened. -/
def zb_simple_desc_register (ctx : device_discovery_ctx_t) (endpoint : Nat)
    (app_device_id : Nat) (clusters : List Nat)
    (devices : List zigbee_device_t) :
    List zigbee_device_t × device_discovery_ctx_t × Bool :=
  if ctx.device_registered then (devices, ctx, false)
  else
    let detected := zb_simple_desc_classify app_device_id clusters
    if detected = .unknown then (devices, ctx, false)
    else
      let device : zigbee_device_t :=
        ⟨ctx.short_addr, ctx.ieee_addr, endpoint, detected, true, 0⟩
      (upsertStep devices device, { ctx with device_registered := true }, true)

/-! ### Cluster-scan lemmas -/

theorem clusterScan_blind_absorb :
    ∀ (l : List Nat) (b : Bool),
      (l.foldl clusterScanStep (.blind, b)).1 = .blind := by
  intro l
  induction l with
  | nil => intro b; rfl
  | cons c rest ih =>
    intro b
    rw [List.foldl_cons]
    have hstep : ∃ b2, clusterScanStep (.blind, b) c = (.blind, b2) := by
      unfold clusterScanStep
      by_cases h1 : c = ESP_ZB_ZCL_CLUSTER_ID_WINDOW_COVERING
      · rw [if_pos h1]
        exact ⟨b, rfl⟩
      · rw [if_neg h1, if_neg (fun h => absurd h.2 (by simp))]
        by_cases h3 : c = TUYA_CLUSTER_ID
        · rw [if_pos h3]
          exact ⟨true, rfl⟩
        · rw [if_neg h3]
          exact ⟨b, rfl⟩
    obtain ⟨b2, hstep⟩ := hstep
    rw [hstep]
    exact ih b2

theorem clusterScan_light_absorb :
    ∀ (l : List Nat), ESP_ZB_ZCL_CLUSTER_ID_WINDOW_COVERING ∉ l →
      ∀ (b : Bool), (l.foldl clusterScanStep (.light, b)).1 = .light := by
  intro l
  induction l with
  | nil => intro _ b; rfl
  | cons c rest ih =>
    intro hwc b
    rw [List.mem_cons] at hwc
    push_neg at hwc
    rw [List.foldl_cons]
    have hstep : ∃ b2, clusterScanStep (.light, b) c = (.light, b2) := by
      unfold clusterScanStep
      rw [if_neg (fun h => hwc.1 h.symm),
        if_neg (fun h => absurd h.2 (by simp))]
      by_cases h3 : c = TUYA_CLUSTER_ID
      · rw [if_pos h3]
        exact ⟨true, rfl⟩
      · rw [if_neg h3]
        exact ⟨b, rfl⟩
    obtain ⟨b2, hstep⟩ := hstep
    rw [hstep]
    exact ih hwc.2 b2

theorem clusterScan_unknown_fst :
    ∀ (l : List Nat), ESP_ZB_ZCL_CLUSTER_ID_WINDOW_COVERING ∉ l →
      ESP_ZB_ZCL_CLUSTER_ID_ON_OFF ∉ l →
      ∀ (b : Bool), (l.foldl clusterScanStep (.unknown, b)).1 = .unknown := by
  intro l
  induction l with
  | nil => intro _ _ b; rfl
  | cons c rest ih =>
    intro hwc hoo b
    rw [List.mem_cons] at hwc hoo
    push_neg at hwc hoo
    rw [List.foldl_cons]
    have hstep : ∃ b2, clusterScanStep (.unknown, b) c = (.unknown, b2) := by
      unfold clusterScanStep
      rw [if_neg (fun h => hwc.1 h.symm),
        if_neg (fun h => hoo.1 h.1.symm)]
      by_cases h3 : c = TUYA_CLUSTER_ID
      · rw [if_pos h3]
        exact ⟨true, rfl⟩
      · rw [if_neg h3]
        exact ⟨b, rfl⟩
    obtain ⟨b2, hstep⟩ := hstep
    rw [hstep]
    exact ih hwc.2 hoo.2 b2

theorem clusterScan_snd_true :
    ∀ (l : List Nat) (p : zigbee_device_type_t × Bool), p.2 = true →
      (l.foldl clusterScanStep p).2 = true := by
  intro l
  induction l with
  | nil => intro p h; exact h
  | cons c rest ih =>
    intro p h
    rw [List.foldl_cons]
    apply ih
    unfold clusterScanStep
    split_ifs <;> simp [h]

theorem clusterScan_snd_of_mem_tuya :
    ∀ (l : List Nat), TUYA_CLUSTER_ID ∈ l →
      ∀ (p : zigbee_device_type_t × Bool),
        (l.foldl clusterScanStep p).2 = true := by
  intro l
  induction l with
  | nil => intro h; exact absurd h (List.not_mem_nil _)
  | cons c rest ih =>
    intro hmem p
    rw [List.foldl_cons]
    rcases List.mem_cons.mp hmem with hc | hc
    · apply clusterScan_snd_true
      subst hc
      unfold clusterScanStep
      rw [if_neg (by decide), if_neg (fun h => absurd h.1 (by decide)),
        if_pos rfl]
    · exact ih hc _

theorem clusterScan_mem_blind :
    ∀ (l : List Nat), ESP_ZB_ZCL_CLUSTER_ID_WINDOW_COVERING ∈ l →
      ∀ (p : zigbee_device_type_t × Bool),
        (l.foldl clusterScanStep p).1 = .blind := by
  intro l
  induction l with
  | nil => intro h; exact absurd h (List.not_mem_nil _)
  | cons c rest ih =>
    intro hmem p
    rw [List.foldl_cons]
    rcases List.mem_cons.mp hmem with hc | hc
    · subst hc
      rw [show clusterScanStep p ESP_ZB_ZCL_CLUSTER_ID_WINDOW_COVERING =
        (.blind, p.2) from by unfold clusterScanStep; rw [if_pos rfl]]
      exact clusterScan_blind_absorb rest p.2
    · exact ih hc _

theorem clusterScan_mem_light :
    ∀ (l : List Nat), ESP_ZB_ZCL_CLUSTER_ID_WINDOW_COVERING ∉ l →
      ESP_ZB_ZCL_CLUSTER_ID_ON_OFF ∈ l →
      ∀ (b : Bool), (l.foldl clusterScanStep (.unknown, b)).1 = .light := by
  intro l
  induction l with
  | nil => intro _ h; exact absurd h (List.not_mem_nil _)
  | cons c rest ih =>
    intro hwc hmem b
    rw [List.mem_cons] at hwc
    push_neg at hwc
    rw [List.foldl_cons]
    rcases List.mem_cons.mp hmem with hc | hc
    · subst hc
      rw [show clusterScanStep (.unknown, b) ESP_ZB_ZCL_CLUSTER_ID_ON_OFF =
        (.light, b) from by
          unfold clusterScanStep
          rw [if_neg (by decide), if_pos ⟨rfl, rfl⟩]]
      exact clusterScan_light_absorb rest hwc.2 b
    · by_cases hoo : c = ESP_ZB_ZCL_CLUSTER_ID_ON_OFF
      · subst hoo
        rw [show clusterScanStep (.unknown, b) ESP_ZB_ZCL_CLUSTER_ID_ON_OFF =
          (.light, b) from by
            unfold clusterScanStep
            rw [if_neg (by decide), if_pos ⟨rfl, rfl⟩]]
        exact clusterScan_light_absorb rest hwc.2 b
      · have hstep : ∃ b2, clusterScanStep (.unknown, b) c = (.unknown, b2) := by
          unfold clusterScanStep
          rw [if_neg (fun h => hwc.1 h.symm), if_neg (fun h => hoo h.1)]
          by_cases h3 : c = TUYA_CLUSTER_ID
          · rw [if_pos h3]
            exact ⟨true, rfl⟩
          · rw [if_neg h3]
            exact ⟨b, rfl⟩
        obtain ⟨b2, hstep⟩ := hstep
        rw [hstep]
        exact ih hwc.2 hc b2

theorem clusterScan_none :
    ∀ (l : List Nat), ESP_ZB_ZCL_CLUSTER_ID_WINDOW_COVERING ∉ l →
      ESP_ZB_ZCL_CLUSTER_ID_ON_OFF ∉ l → TUYA_CLUSTER_ID ∉ l →
      l.foldl clusterScanStep (.unknown, false) = (.unknown, false) := by
  intro l
  induction l with
  | nil => intro _ _ _; rfl
  | cons c rest ih =>
    intro hwc hoo htu
    rw [List.mem_cons] at hwc hoo htu
    push_neg at hwc hoo htu
    rw [List.foldl_cons]
    rw [show clusterScanStep (.unknown, false) c = (.unknown, false) from by
      unfold clusterScanStep
      rw [if_neg (fun h => hwc.1 h.symm), if_neg (fun h => hoo.1 h.1.symm),
        if_neg (fun h => htu.1 h.symm)]]
    exact ih hwc.2 hoo.2 htu.2

/-! ## Claim C7 -/

/-- C7: classification returns BLIND whenever the window-covering cluster is
in the input-cluster list, wherever it appears; else LIGHT when the on/off
cluster is present; else TUYA_BLIND when the Tuya vendor cluster is present,
for every device id; and when none of the three clusters is present the type
stays UNKNOWN and the registration step builds no record and performs no
upsert. -/
theorem C7_classification (app_device_id : Nat) (clusters : List Nat) :
    (ESP_ZB_ZCL_CLUSTER_ID_WINDOW_COVERING ∈ clusters →
      zb_simple_desc_classify app_device_id clusters = .blind) ∧
    (ESP_ZB_ZCL_CLUSTER_ID_WINDOW_COVERING ∉ clusters →
      ESP_ZB_ZCL_CLUSTER_ID_ON_OFF ∈ clusters →
      zb_simple_desc_classify app_device_id clusters = .light) ∧
    (ESP_ZB_ZCL_CLUSTER_ID_WINDOW_COVERING ∉ clusters →
      ESP_ZB_ZCL_CLUSTER_ID_ON_OFF ∉ clusters →
      TUYA_CLUSTER_ID ∈ clusters →
      zb_simple_desc_classify app_device_id clusters = .tuyaBlind) ∧
    (ESP_ZB_ZCL_CLUSTER_ID_WINDOW_COVERING ∉ clusters →
      ESP_ZB_ZCL_CLUSTER_ID_ON_OFF ∉ clusters →
      TUYA_CLUSTER_ID ∉ clusters →
      zb_simple_desc_classify app_device_id clusters = .unknown ∧
      ∀ (ctx : device_discovery_ctx_t) (endpoint : Nat)
        (devices : List zigbee_device_t),
        zb_simple_desc_register ctx endpoint app_device_id clusters devices =
          (devices, ctx, false)) := by
  refine ⟨?_, ?_, ?_, ?_⟩
  · intro hwc
    have h1 : (clusters.foldl clusterScanStep (.unknown, false)).1 = .blind :=
      clusterScan_mem_blind clusters hwc _
    unfold zb_simple_desc_classify
    rw [if_neg (fun h => by simp [h1] at h)]
    exact h1
  · intro hwc hoo
    have h1 : (clusters.foldl clusterScanStep (.unknown, false)).1 = .light :=
      clusterScan_mem_light clusters hwc hoo false
    unfold zb_simple_desc_classify
    rw [if_neg (fun h => by simp [h1] at h)]
    exact h1
  · intro hwc hoo htu
    have h1 : (clusters.foldl clusterScanStep (.unknown, false)).1 = .unknown :=
      clusterScan_unknown_fst clusters hwc hoo false
    have h2 : (clusters.foldl clusterScanStep (.unknown, false)).2 = true :=
      clusterScan_snd_of_mem_tuya clusters htu _
    unfold zb_simple_desc_classify
    rw [if_pos ⟨h1, h2⟩]
    split_ifs <;> rfl
  · intro hwc hoo htu
    have hall : clusters.foldl clusterScanStep (.unknown, false) =
        (.unknown, false) := clusterScan_none clusters hwc hoo htu
    have hcl : zb_simple_desc_classify app_device_id clusters = .unknown := by
      unfold zb_simple_desc_classify
      rw [if_neg (fun h => by simp [hall] at h)]
      rw [hall]
    refine ⟨hcl, ?_⟩
    intro ctx endpoint devices
    unfold zb_simple_desc_register
    by_cases hreg : ctx.device_registered = true
    · rw [if_pos hreg]
    · rw [if_neg hreg]
      simp [hcl]

/-! ## Join-announcement handling
(esp_zb_app_signal_handler, case ESP_ZB_ZDO_SIGNAL_DEVICE_ANNCE) -/

/-- The outward queries the DEVICE_ANNCE branch could issue. The active
endpoint query starts the classification pipeline; a position query is what
`zigbee_blind_query_position` would send (it is issued from the reboot
reconnect path, not from this branch). -/
inductive discovery_action_t where
  | activeEpQuery (short_addr : Nat)
  | queryPosition (short_addr : Nat)
deriving DecidableEq, Repr

/-- Result of handling one join announcement: the registry afterwards, the
discovery context written (if any), and the queries issued. -/
structure AnnceResult where
  devices : List zigbee_device_t
  ctx : Option device_discovery_ctx_t
  actions : List discovery_action_t
deriving DecidableEq, Repr

/-- The DEVICE_ANNCE branch: scan the registry by IEEE address. A known
device is a rejoin: when the stored short address differs from the announced
one, upsert a copy with the new short address and `is_online = true`
(otherwise touch nothing); no query is issued and the discovery context is
untouched. An unknown device populates the discovery context and issues the
active-endpoint query. -/
def handle_device_annce (devices : List zigbee_device_t)
    (device_short_addr : Nat) (ieee_addr : List Nat) : AnnceResult :=
  match get_by_ieee ieee_addr devices with
  | some dev =>
    if dev.short_addr ≠ device_short_addr then
      let updated : zigbee_device_t :=
        { dev with short_addr := device_short_addr, is_online := true }
      { devices := upsertStep devices updated, ctx := none, actions := [] }
    else
      { devices := devices, ctx := none, actions := [] }
  | none =>
    { devices := devices,
      ctx := some ⟨device_short_addr, ieee_addr, false⟩,
      actions := [.activeEpQuery device_short_addr] }

/-- The record found by the IEEE scan carries the searched key, which is
therefore among the registry's keys. -/
theorem get_by_ieee_some_key {ieee : List Nat} :
    ∀ {l : List zigbee_device_t} {d : zigbee_device_t},
      get_by_ieee ieee l = some d →
      d.ieee_addr = ieee ∧ ieee ∈ ieeeKeys l := by
  intro l
  induction l with
  | nil => intro d h; simp [get_by_ieee] at h
  | cons e rest ih =>
    intro d h
    by_cases he : e.ieee_addr = ieee
    · simp only [get_by_ieee, if_pos he, Option.some_inj] at h
      subst h
      exact ⟨he, by simp [ieeeKeys, he]⟩
    · simp only [get_by_ieee, if_neg he] at h
      obtain ⟨h1, h2⟩ := ih h
      exact ⟨h1, by simp [ieeeKeys] at h2 ⊢; exact Or.inr h2⟩

/-! ## Claim C6 -/

/-- C6 counterexample: a stored proprietary device that rejoins with an
unchanged short address while marked offline — the handler leaves the record
offline (it is only marked online when the short address changed) and issues
no position query, contradicting the claim that every rejoin marks the
device online and queries a proprietary device's position. -/
theorem C6_counterexample :
    (⟨5, [1, 2, 3, 4, 5, 6, 7, 8], 1, .tuyaBlind, false, 0⟩ :
      zigbee_device_t).is_online = false ∧
    (⟨5, [1, 2, 3, 4, 5, 6, 7, 8], 1, .tuyaBlind, false, 0⟩ :
      zigbee_device_t).device_type = .tuyaBlind ∧
    handle_device_annce
      [⟨5, [1, 2, 3, 4, 5, 6, 7, 8], 1, .tuyaBlind, false, 0⟩] 5
      [1, 2, 3, 4, 5, 6, 7, 8] =
      ⟨[⟨5, [1, 2, 3, 4, 5, 6, 7, 8], 1, .tuyaBlind, false, 0⟩], none, []⟩ :=
  ⟨rfl, rfl, rfl⟩

/-- C6 (amended): a join announcement whose IEEE address is already stored
never re-runs classification — no discovery context is written, no query of
any kind is issued, and no record is created (the registry keeps its
length). When the short address is unchanged the registry is completely
untouched; when it changed, the stored record is overwritten in place by a
copy with the new short address and marked online, all other records staying
as they were. -/
theorem C6_rejoin_updates_only (devices : List zigbee_device_t)
    (short_addr : Nat) (ieee : List Nat) (dev : zigbee_device_t)
    (hfound : get_by_ieee ieee devices = some dev) :
    (handle_device_annce devices short_addr ieee).ctx = none ∧
    (handle_device_annce devices short_addr ieee).actions = [] ∧
    (handle_device_annce devices short_addr ieee).devices.length =
      devices.length ∧
    (dev.short_addr = short_addr →
      handle_device_annce devices short_addr ieee = ⟨devices, none, []⟩) ∧
    (dev.short_addr ≠ short_addr →
      get_by_ieee ieee (handle_device_annce devices short_addr ieee).devices =
        some { dev with short_addr := short_addr, is_online := true } ∧
      ∀ e ∈ devices, e.ieee_addr ≠ ieee →
        e ∈ (handle_device_annce devices short_addr ieee).devices) := by
  obtain ⟨hkey, hmem⟩ := get_by_ieee_some_key hfound
  by_cases hsa : dev.short_addr = short_addr
  · have hres : handle_device_annce devices short_addr ieee =
        ⟨devices, none, []⟩ := by
      simp only [handle_device_annce, hfound]
      simp [hsa]
    rw [hres]
    exact ⟨rfl, rfl, rfl, fun _ => rfl, fun h => absurd hsa h⟩
  · have hukey : ({ dev with short_addr := short_addr, is_online := true } :
        zigbee_device_t).ieee_addr = ieee := hkey
    have hnotnone : ¬ replaceByIeee
        { dev with short_addr := short_addr, is_online := true } devices =
          none := fun h =>
      (replaceByIeee_eq_none.mp h) (by rw [hukey]; exact hmem)
    obtain ⟨l, hl⟩ : ∃ l, replaceByIeee
        { dev with short_addr := short_addr, is_online := true } devices =
          some l := Option.ne_none_iff_exists'.mp hnotnone
    have hadd : zigbee_devices_add
        { dev with short_addr := short_addr, is_online := true } devices =
          .ok l := by
      unfold zigbee_devices_add
      rw [hl]
    have hstep : upsertStep devices
        { dev with short_addr := short_addr, is_online := true } = l := by
      unfold upsertStep
      rw [hadd]
      rfl
    have hres : handle_device_annce devices short_addr ieee =
        ⟨l, none, []⟩ := by
      simp only [handle_device_annce, hfound]
      rw [if_pos hsa, hstep]
    rw [hres]
    refine ⟨rfl, rfl, replaceByIeee_length hl, fun h => absurd h hsa, ?_⟩
    intro _
    constructor
    · rw [← hkey]
      exact replaceByIeee_get hl
    · intro e he hne
      exact replaceByIeee_mem_of_ne hl e he (fun h => hne (h.trans hukey))

/-- C6 witness: a stored device rejoining with a changed short address — the
handler writes no discovery context and issues no query. -/
theorem C6_witness :
    (handle_device_annce [sampleDev 3] 9 (sampleDev 3).ieee_addr).ctx = none ∧
    (handle_device_annce [sampleDev 3] 9 (sampleDev 3).ieee_addr).actions =
      [] :=
  ⟨(C6_rejoin_updates_only [sampleDev 3] 9 (sampleDev 3).ieee_addr
      (sampleDev 3) rfl).1,
   (C6_rejoin_updates_only [sampleDev 3] 9 (sampleDev 3).ieee_addr
      (sampleDev 3) rfl).2.1⟩

/-! ## Command dispatch (zigbee_hub.c, blind control) -/

def TUYA_CMD_SET_DATA : Nat := 0x00
def TUYA_DP_CONTROL : Nat := 0x01
def TUYA_DP_PERCENT : Nat := 0x02
def TUYA_TYPE_VALUE : Nat := 0x02
def TUYA_TYPE_ENUM : Nat := 0x04
def TUYA_BLIND_OPEN : Nat := 0x00
def TUYA_BLIND_STOP : Nat := 0x01
def TUYA_BLIND_CLOSE : Nat := 0x02

/-- `is_blind_device`: matches both the standard and the Tuya blind kind. -/
def is_blind_device (dev : zigbee_device_t) : Bool :=
  dev.device_type == .blind || dev.device_type == .tuyaBlind

/-- `zigbee_get_first_blind`: first stored device of either blind kind. -/
def zigbee_get_first_blind (devices : List zigbee_device_t) :
    Option zigbee_device_t :=
  devices.find? is_blind_device

/-- `get_blind_device`: address 0 means the first blind; otherwise the first
record with the given short address that is a blind. -/
def get_blind_device (devices : List zigbee_device_t) (device_addr : Nat) :
    Option zigbee_device_t :=
  if device_addr = 0 then zigbee_get_first_blind devices
  else devices.find?
    (fun d => d.short_addr == device_addr && is_blind_device d)

/-- The wire transmissions the dispatcher can produce: the four native
window-covering cluster commands, or a Tuya 0xEF00 custom-cluster frame. -/
inductive wire_cmd_t where
  | windowCoveringUpOpen
  | windowCoveringDownClose
  | windowCoveringStop
  | windowCoveringGoToLiftPercentage (lift_percent : Nat)
  | tuyaClusterFrame (frame : List Nat)
deriving DecidableEq, Repr

set_option linter.unusedVariables false in
/-- `tuya_send_command`: build the frame and send it; the transport's
reported result is logged and discarded — the function always returns ESP_OK
once the frame fits (`return ESP_OK; /* Always return OK since command
usually works */`). `transport_ret` is what
`esp_zb_zcl_custom_cluster_cmd_req` reported. -/
def tuya_send_command (seq : Nat) (transport_ret : esp_err_t)
    (dp_id data_type : Nat) (data : List Nat) :
    esp_err_t × Option wire_cmd_t :=
  match tuya_encode seq dp_id data_type data with
  | .error e => (e, none)
  | .ok frame => (.espOk, some (.tuyaClusterFrame frame))

/-- `tuya_blind_control`: control datapoint, 1-byte enum payload. -/
def tuya_blind_control (seq : Nat) (transport_ret : esp_err_t)
    (control_cmd : Nat) : esp_err_t × Option wire_cmd_t :=
  tuya_send_command seq transport_ret TUYA_DP_CONTROL TUYA_TYPE_ENUM
    [control_cmd]

/-- `tuya_blind_position`: position datapoint, the percentage as a 4-byte
big-endian integer (`uint8_t data[4] = {0, 0, 0, percent}`). -/
def tuya_blind_position (seq : Nat) (transport_ret : esp_err_t)
    (percent : Nat) : esp_err_t × Option wire_cmd_t :=
  tuya_send_command seq transport_ret TUYA_DP_PERCENT TUYA_TYPE_VALUE
    [0, 0, 0, percent]

/-- `zigbee_blind_open`: resolve the device; Tuya devices get the Tuya open
command, standard devices the native UP_OPEN command whose transport result
is returned to the caller. -/
def zigbee_blind_open (devices : List zigbee_device_t) (device_addr : Nat)
    (seq : Nat) (transport_ret : esp_err_t) : esp_err_t × Option wire_cmd_t :=
  match get_blind_device devices device_addr with
  | none => (.errNotFound, none)
  | some blind =>
    if blind.device_type = .tuyaBlind then
      tuya_blind_control seq transport_ret TUYA_BLIND_OPEN
    else (transport_ret, some .windowCoveringUpOpen)

/-- `zigbee_blind_close`. -/
def zigbee_blind_close (devices : List zigbee_device_t) (device_addr : Nat)
    (seq : Nat) (transport_ret : esp_err_t) : esp_err_t × Option wire_cmd_t :=
  match get_blind_device devices device_addr with
  | none => (.errNotFound, none)
  | some blind =>
    if blind.device_type = .tuyaBlind then
      tuya_blind_control seq transport_ret TUYA_BLIND_CLOSE
    else (transport_ret, some .windowCoveringDownClose)

/-- `zigbee_blind_stop`. -/
def zigbee_blind_stop (devices : List zigbee_device_t) (device_addr : Nat)
    (seq : Nat) (transport_ret : esp_err_t) : esp_err_t × Option wire_cmd_t :=
  match get_blind_device devices device_addr with
  | none => (.errNotFound, none)
  | some blind =>
    if blind.device_type = .tuyaBlind then
      tuya_blind_control seq transport_ret TUYA_BLIND_STOP
    else (transport_ret, some .windowCoveringStop)

/-- `zigbee_blind_set_position`: resolve, clamp percentages above 100 to
100, then dispatch — Tuya devices get the position frame (uninverted), and
standard devices the GO_TO_LIFT_PERCENTAGE command with the inverted value
`100 - percent`. -/
def zigbee_blind_set_position (devices : List zigbee_device_t)
    (device_addr percent seq : Nat) (transport_ret : esp_err_t) :
    esp_err_t × Option wire_cmd_t :=
  match get_blind_device devices device_addr with
  | none => (.errNotFound, none)
  | some blind =>
    let percent2 := if 100 < percent then 100 else percent
    if blind.device_type = .tuyaBlind then
      tuya_blind_position seq transport_ret percent2
    else
      (transport_ret, some (.windowCoveringGoToLiftPercentage (100 - percent2)))

/-- The 4-byte big-endian encoding of a natural number below 2^32. -/
def natToBe4 (n : Nat) : List Nat :=
  [n / 2 ^ 24 % 256, n / 2 ^ 16 % 256, n / 2 ^ 8 % 256, n % 256]

/-- A device resolved by `get_blind_device` is one of the two blind kinds. -/
theorem get_blind_device_is_blind {devices : List zigbee_device_t}
    {device_addr : Nat} {b : zigbee_device_t}
    (h : get_blind_device devices device_addr = some b) :
    b.device_type = .blind ∨ b.device_type = .tuyaBlind := by
  have hb : is_blind_device b = true := by
    unfold get_blind_device zigbee_get_first_blind at h
    by_cases h0 : device_addr = 0
    · rw [if_pos h0] at h
      exact List.find?_some h
    · rw [if_neg h0] at h
      have := List.find?_some h
      simp only [Bool.and_eq_true] at this
      exact this.2
  unfold is_blind_device at hb
  simp only [Bool.or_eq_true, beq_iff_eq] at hb
  exact hb

/-! ## Claim C3, C9 and C10 -/

/-- Concrete standard-covering device used by the witnesses. -/
def sampleStdBlind : zigbee_device_t :=
  ⟨2, [9, 9, 9, 9, 9, 9, 9, 9], 1, .blind, true, 0⟩

/-- C3: for a resolved covering device and a percentage within 0..100,
set-position sends the inverted lift value `100 - percent` through the
native go-to-lift-percentage command on a standard device, and the
uninverted percentage as a 4-byte big-endian integer in the Tuya
position-datapoint frame on a proprietary device. -/
theorem C3_set_position_encodings (devices : List zigbee_device_t)
    (device_addr percent seq : Nat) (transport_ret : esp_err_t)
    (blind : zigbee_device_t)
    (hres : get_blind_device devices device_addr = some blind)
    (hp : percent ≤ 100) :
    (blind.device_type = .blind →
      zigbee_blind_set_position devices device_addr percent seq transport_ret =
        (transport_ret,
         some (.windowCoveringGoToLiftPercentage (100 - percent)))) ∧
    (blind.device_type = .tuyaBlind →
      zigbee_blind_set_position devices device_addr percent seq transport_ret =
        (.espOk, some (.tuyaClusterFrame
          ([0, (seq + 1) % 256, TUYA_DP_PERCENT, TUYA_TYPE_VALUE, 0, 4] ++
            natToBe4 percent)))) := by
  have hclamp : (if 100 < percent then 100 else percent) = percent :=
    if_neg (by omega)
  constructor
  · intro h
    simp only [zigbee_blind_set_position, hres]
    rw [if_neg (by simp [h])]
    rw [hclamp]
  · intro h
    simp only [zigbee_blind_set_position, hres]
    rw [if_pos h, hclamp]
    simp [tuya_blind_position, tuya_send_command, tuya_encode, natToBe4,
      TUYA_DP_PERCENT, TUYA_TYPE_VALUE]
    omega

/-- C3 witness: set-position 30 sends lift 70 to a standard blind and the
big-endian bytes of 30 to a Tuya blind. -/
theorem C3_witness :
    zigbee_blind_set_position [sampleStdBlind] 0 30 0 .errFail =
      (.errFail, some (.windowCoveringGoToLiftPercentage 70)) ∧
    zigbee_blind_set_position [sampleDev 1] 0 30 0 .errFail =
      (.espOk, some (.tuyaClusterFrame [0, 1, 2, 2, 0, 4, 0, 0, 0, 30])) := by
  constructor
  · have h := (C3_set_position_encodings [sampleStdBlind] 0 30 0 .errFail
      sampleStdBlind rfl (by decide)).1 rfl
    simpa using h
  · have h := (C3_set_position_encodings [sampleDev 1] 0 30 0 .errFail
      (sampleDev 1) rfl (by decide)).2 rfl
    simpa [natToBe4, TUYA_DP_PERCENT, TUYA_TYPE_VALUE] using h

/-- C9: on the proprietary path every public command — open, close, stop,
set-position — returns ESP_OK whatever result the underlying transport
reported; the failure is swallowed, never propagated. -/
theorem C9_proprietary_send_swallows_transport_failure
    (devices : List zigbee_device_t) (device_addr seq percent : Nat)
    (transport_ret : esp_err_t) (blind : zigbee_device_t)
    (hres : get_blind_device devices device_addr = some blind)
    (htuya : blind.device_type = .tuyaBlind) :
    (zigbee_blind_open devices device_addr seq transport_ret).1 = .espOk ∧
    (zigbee_blind_close devices device_addr seq transport_ret).1 = .espOk ∧
    (zigbee_blind_stop devices device_addr seq transport_ret).1 = .espOk ∧
    (zigbee_blind_set_position devices device_addr percent seq
      transport_ret).1 = .espOk := by
  refine ⟨?_, ?_, ?_, ?_⟩
  · simp only [zigbee_blind_open, hres]
    rw [if_pos htuya]
    simp [tuya_blind_control, tuya_send_command, tuya_encode]
  · simp only [zigbee_blind_close, hres]
    rw [if_pos htuya]
    simp [tuya_blind_control, tuya_send_command, tuya_encode]
  · simp only [zigbee_blind_stop, hres]
    rw [if_pos htuya]
    simp [tuya_blind_control, tuya_send_command, tuya_encode]
  · simp only [zigbee_blind_set_position, hres]
    rw [if_pos htuya]
    simp [tuya_blind_position, tuya_send_command, tuya_encode]

/-- C9 witness: with a failing transport, all four proprietary commands
still return ESP_OK. -/
theorem C9_witness :
    (zigbee_blind_open [sampleDev 1] 0 0 .errFail).1 = .espOk ∧
    (zigbee_blind_close [sampleDev 1] 0 0 .errFail).1 = .espOk ∧
    (zigbee_blind_stop [sampleDev 1] 0 0 .errFail).1 = .espOk ∧
    (zigbee_blind_set_position [sampleDev 1] 0 42 0 .errFail).1 = .espOk :=
  C9_proprietary_send_swallows_transport_failure [sampleDev 1] 0 0 42
    .errFail (sampleDev 1) rfl rfl

/-- C10: a percentage above 100 is clamped to 100 before dispatch — the call
behaves exactly as set-position 100: a standard device receives lift 0, a
proprietary device receives big-endian 100, and the out-of-range input causes
no error return beyond what set-position 100 itself would return. -/
theorem C10_set_position_clamps (devices : List zigbee_device_t)
    (device_addr percent seq : Nat) (transport_ret : esp_err_t)
    (blind : zigbee_device_t)
    (hres : get_blind_device devices device_addr = some blind)
    (hp : 100 < percent) :
    zigbee_blind_set_position devices device_addr percent seq transport_ret =
      zigbee_blind_set_position devices device_addr 100 seq transport_ret ∧
    (blind.device_type = .blind →
      zigbee_blind_set_position devices device_addr percent seq transport_ret =
        (transport_ret, some (.windowCoveringGoToLiftPercentage 0))) ∧
    (blind.device_type = .tuyaBlind →
      zigbee_blind_set_position devices device_addr percent seq transport_ret =
        (.espOk, some (.tuyaClusterFrame
          ([0, (seq + 1) % 256, TUYA_DP_PERCENT, TUYA_TYPE_VALUE, 0, 4] ++
            natToBe4 100)))) := by
  have hclamp : (if 100 < percent then 100 else percent) = 100 := if_pos hp
  have heq : zigbee_blind_set_position devices device_addr percent seq
      transport_ret =
      zigbee_blind_set_position devices device_addr 100 seq transport_ret := by
    simp [zigbee_blind_set_position, hres, hclamp]
  refine ⟨heq, ?_, ?_⟩
  · intro h
    rw [heq]
    have h100 := (C3_set_position_encodings devices device_addr 100 seq
      transport_ret blind hres (by omega)).1 h
    simpa using h100
  · intro h
    rw [heq]
    exact (C3_set_position_encodings devices device_addr 100 seq
      transport_ret blind hres (by omega)).2 h

/-- C10 witness: set-position 250 behaves as set-position 100 for both
kinds. -/
theorem C10_witness :
    zigbee_blind_set_position [sampleStdBlind] 0 250 0 .errFail =
      zigbee_blind_set_position [sampleStdBlind] 0 100 0 .errFail ∧
    zigbee_blind_set_position [sampleStdBlind] 0 250 0 .errFail =
      (.errFail, some (.windowCoveringGoToLiftPercentage 0)) ∧
    zigbee_blind_set_position [sampleDev 1] 0 250 0 .espOk =
      (.espOk, some (.tuyaClusterFrame [0, 1, 2, 2, 0, 4, 0, 0, 0, 100])) := by
  refine ⟨?_, ?_, ?_⟩
  · exact (C10_set_position_clamps [sampleStdBlind] 0 250 0 .errFail
      sampleStdBlind rfl (by decide)).1
  · exact (C10_set_position_clamps [sampleStdBlind] 0 250 0 .errFail
      sampleStdBlind rfl (by decide)).2.1 rfl
  · have h := (C10_set_position_clamps [sampleDev 1] 0 250 0 .espOk
      (sampleDev 1) rfl (by decide)).2.2 rfl
    simpa [natToBe4, TUYA_DP_PERCENT, TUYA_TYPE_VALUE] using h
